import Mathlib

/-!
Shallow embedding of the `adxl345` Go package (an ADXL345 accelerometer
driver over SMBus), together with theorems settling the specification
claims about it.

Modelling conventions:
* Go `byte` values are `Nat` kept below 256; every operation the language
  performs at byte width carries an explicit `% 256`.
* Go `int32` intermediates stay nonnegative and below `2 ^ 32` on all paths
  reached here, so they are represented as `Nat`; the constant `^0x0F`
  (bitwise complement of `0x0F` at `int32` width) has bit pattern
  `0xFFFFFFF0`.
* Go `float64` arithmetic is idealised as exact rational arithmetic (`ℚ`):
  the literals `0.0039` and `9.80665` become the rationals `39 / 10000` and
  `980665 / 100000`, `math.Floor` becomes `Int.floor`, and `math.Pow 10 n`
  becomes `10 ^ n`.
* The SMBus transport is an oracle: a record of response functions for the
  three primitives the driver uses.  Each driver method returns its Go
  result together with the trace of transport calls it attempted and the
  receiver as it stands when the method returns (Go passes the receiver by
  value and the driver never assigns to its fields).
* `log.Fatal` terminates the Go process (it is `Print` followed by
  `os.Exit(1)`), so the constructor's outcome is a `GoProc` value that
  distinguishes a normal return from a fatal process exit.
-/

namespace Adxl345

/-- Earth gravity constant in m/s², Go literal `9.80665`. -/
def earthGravityMS2 : ℚ := 980665 / 100000

/-- Typical scale factor in g/LSB, Go literal `0.0039`. -/
def scaleMultiplier : ℚ := 39 / 10000

/-- DATA_FORMAT register address. -/
def dataFormat : Nat := 0x31

/-- BW_RATE register address. -/
def bwRate : Nat := 0x2C

/-- POWER_CTL register address. -/
def powerCTL : Nat := 0x2D

/-- The measure bit written to POWER_CTL. -/
def measure : Nat := 0x08

/-- First axis data register (DATAX0). -/
def dataX0 : Nat := 0x32

/-- Bandwidth-rate code for 100 Hz, the constructor default. -/
def Rate100HZ : Nat := 0x0B

/-- Range code for plus-or-minus 2g, the constructor default. -/
def Range2G : Nat := 0x00

/-- Source `round`: `math.Floor(f*shift+.5) / shift` with
`shift = math.Pow(10, places)`. -/
def round (f : ℚ) (places : Nat) : ℚ :=
  ((Int.floor (f * 10 ^ places + 1 / 2) : Int) : ℚ) / 10 ^ places

/-- The value type returned by the axis readers. -/
structure vector where
  x : ℚ
  y : ℚ
  z : ℚ
deriving DecidableEq

/-- Source `newVector`: the all-zero vector. -/
def newVector : vector := { x := 0, y := 0, z := 0 }

/-- One attempted transport call, recorded in a method's trace. -/
inductive Event where
  | readByte (reg : Nat) : Event
  | writeByte (reg val : Nat) : Event
  | readBlock (reg len : Nat) : Event
  | closeBus : Event
deriving DecidableEq

/-- The SMBus transport oracle: responses of the three primitives the
driver uses.  `writeByteData` yields `none` on success and `some e` on a
transport error `e`; reads yield `Except`. -/
structure SMBus where
  readByteData : Nat → Except String Nat
  writeByteData : Nat → Nat → Option String
  readI2CBlockData : Nat → Nat → Except String (List Nat)

/-- The device handle: transport reference, I2C address (a byte) and bus
line index. -/
structure ADXL345 where
  bus : SMBus
  Address : Nat
  Line : Nat

/-- Outcome of one driver method: the Go return value, the trace of
transport calls attempted, and the receiver as the method returns it. -/
structure MethodOut (α : Type) where
  ret : α
  trace : List Event
  self : ADXL345

/-- Go byte-width left shift: the result of shifting a `byte` is again a
`byte`, so a shift by 8 discards everything. -/
def byteShl (b n : Nat) : Nat := (b <<< n) % 256

/-- Go byte-width bitwise or. -/
def byteOr (a b : Nat) : Nat := (a ||| b) % 256

/-- Reading index `i` of a Go `[]byte`: entries are bytes (`% 256`); the
driver's buffer always has length 6, `getD` supplies 0 beyond the end. -/
def byteAt (buf : List Nat) (i : Nat) : Nat := buf.getD i 0 % 256

/-- Go `int16(n)` reinterpretation of the low 16 bits of a nonnegative
value as a signed two's-complement integer. -/
def int16ofNat (n : Nat) : Int :=
  if n % 65536 < 32768 then ((n % 65536 : Nat) : Int)
  else ((n % 65536 : Nat) : Int) - 65536

/-- The raw axis value the source computes from a byte pair:
`xi := int16(lo | (hi << 8))`, where `lo | (hi << 8)` is evaluated at
byte width. -/
def rawAxis (lo hi : Nat) : Int :=
  int16ofNat (byteOr (lo % 256) (byteShl (hi % 256) 8))

/-- The decoding the specification describes: little-endian signed 16-bit,
low byte plus high byte shifted left 8, reinterpreted as signed. -/
def specLittleEndianInt16 (lo hi : Nat) : Int :=
  int16ofNat (lo % 256 + (hi % 256) * 256)

/-- Source `SetBandwidthRate`: one byte write to BW_RATE. -/
def SetBandwidthRate (a : ADXL345) (newRate : Nat) : MethodOut (Option String) :=
  { ret := a.bus.writeByteData bwRate (newRate % 256)
    trace := [Event.writeByte bwRate (newRate % 256)]
    self := a }

/-- The byte `SetRange` writes back: `value := int32(retval)`,
`value &= ^0x0F`, `value |= int32(newRange)`, `value |= 0x08`, then
`byte(value)`.  `retval` and `newRange` are Go bytes, hence the `% 256` on
them; `value` stays in `[0, 2 ^ 32)` so the `int32` is represented as a
`Nat` and `^0x0F` as the pattern `0xFFFFFFF0`. -/
def setRangeWrittenByte (retval newRange : Nat) : Nat :=
  let v1 : Nat := (retval % 256) &&& 0xFFFFFFF0
  let v2 : Nat := v1 ||| (newRange % 256)
  let v3 : Nat := v2 ||| 0x08
  v3 % 256

/-- Source `SetRange`: read DATA_FORMAT; on a read error return it before
any write; otherwise write back `setRangeWrittenByte`.  (The source also
prints the byte it read; standard output is not part of the transport
trace.) -/
def SetRange (a : ADXL345) (newRange : Nat) : MethodOut (Option String) :=
  match a.bus.readByteData dataFormat with
  | Except.error e =>
      { ret := some e, trace := [Event.readByte dataFormat], self := a }
  | Except.ok retval =>
      let w := setRangeWrittenByte retval newRange
      { ret := a.bus.writeByteData dataFormat w
        trace := [Event.readByte dataFormat, Event.writeByte dataFormat w]
        self := a }

/-- Source `EnableMeasurement`: write the measure bit to POWER_CTL. -/
def EnableMeasurement (a : ADXL345) : MethodOut (Option String) :=
  { ret := a.bus.writeByteData powerCTL measure
    trace := [Event.writeByte powerCTL measure]
    self := a }

/-- Source `GetAxesG`: one 6-byte block read at DATAX0; on error return the
zero vector and the error; otherwise decode each byte pair with `rawAxis`,
scale by `scaleMultiplier` and round to 4 places. -/
def GetAxesG (a : ADXL345) : MethodOut (vector × Option String) :=
  match a.bus.readI2CBlockData dataX0 6 with
  | Except.error e =>
      { ret := (newVector, some e), trace := [Event.readBlock dataX0 6], self := a }
  | Except.ok buf =>
      let xi := rawAxis (byteAt buf 0) (byteAt buf 1)
      let yi := rawAxis (byteAt buf 2) (byteAt buf 3)
      let zi := rawAxis (byteAt buf 4) (byteAt buf 5)
      let axes : vector :=
        { x := round ((xi : ℚ) * scaleMultiplier) 4
          y := round ((yi : ℚ) * scaleMultiplier) 4
          z := round ((zi : ℚ) * scaleMultiplier) 4 }
      { ret := (axes, none), trace := [Event.readBlock dataX0 6], self := a }

/-- Source `GetAxesAcceleration`: call `GetAxesG`; on error return the zero
vector and the error; otherwise multiply each component by
`earthGravityMS2` and round to 4 places. -/
def GetAxesAcceleration (a : ADXL345) : MethodOut (vector × Option String) :=
  let g := GetAxesG a
  match g.ret.2 with
  | some e => { ret := (newVector, some e), trace := g.trace, self := a }
  | none =>
      let gAxes := g.ret.1
      { ret :=
          ({ x := round (gAxes.x * earthGravityMS2) 4
             y := round (gAxes.y * earthGravityMS2) 4
             z := round (gAxes.z * earthGravityMS2) 4 }, none)
        trace := g.trace
        self := a }

/-- Source `Close`: close the transport; any close error is discarded. -/
def Close (a : ADXL345) : MethodOut Unit :=
  { ret := (), trace := [Event.closeBus], self := a }

/-- Outcome of running a Go function that may call `log.Fatal`: either a
normal return or a fatal process exit. -/
inductive GoProc (α : Type) where
  | ret : α → GoProc α
  | exit : String → GoProc α

/-- Source `NewADXL345`, with the outcome of `smbus.New(line, address)`
passed in as `openResult`.  On an open error the source constructs the
handle around the nil transport and then calls `log.Fatal`, exiting the
process before the `return` line is reached; the same holds for each
failing configuration step, so every error path is a `GoProc.exit` and the
`return adxl345, err` statements after `log.Fatal` are dead code. -/
def NewADXL345 (openResult : Except String SMBus) (line address : Nat) :
    GoProc (ADXL345 × Option String) × List Event :=
  match openResult with
  | Except.error e => (GoProc.exit e, [])
  | Except.ok smb =>
      let adxl : ADXL345 := { bus := smb, Address := address % 256, Line := line }
      let o1 := SetBandwidthRate adxl Rate100HZ
      match o1.ret with
      | some e => (GoProc.exit e, o1.trace)
      | none =>
          let o2 := SetRange adxl Range2G
          match o2.ret with
          | some e => (GoProc.exit e, o1.trace ++ o2.trace)
          | none =>
              let o3 := EnableMeasurement adxl
              match o3.ret with
              | some e => (GoProc.exit e, o1.trace ++ o2.trace ++ o3.trace)
              | none => (GoProc.ret (adxl, none), o1.trace ++ o2.trace ++ o3.trace)

/-! ### Helper lemmas -/

/-- A `byteAt` value is a byte. -/
theorem byteAt_lt (buf : List Nat) (i : Nat) : byteAt buf i < 256 :=
  Nat.mod_lt _ (by norm_num)

/-- The source's byte-pair decode ignores the high byte: the byte-width
shift by 8 vanishes, so the raw value is just the low byte. -/
theorem rawAxis_eq_low (lo hi : Nat) : rawAxis lo hi = ((lo % 256 : Nat) : Int) := by
  have hlt : lo % 256 < 256 := Nat.mod_lt _ (by norm_num)
  have hshift : byteShl (hi % 256) 8 = 0 := by
    unfold byteShl
    rw [Nat.shiftLeft_eq]
    norm_num [Nat.mul_mod_left]
  unfold rawAxis
  rw [hshift]
  unfold byteOr
  rw [Nat.or_zero, Nat.mod_eq_of_lt hlt]
  unfold int16ofNat
  have h2 : lo % 256 % 65536 = lo % 256 := Nat.mod_eq_of_lt (by omega)
  rw [h2, if_pos (by omega)]

/-- The rounded value differs from its argument by at most `1 / 10000`. -/
theorem round_abs_sub_le (q : ℚ) : |round q 4 - q| ≤ 1 / 10000 := by
  have hpow : ((10 : ℚ) ^ (4 : Nat)) = 10000 := by norm_num
  unfold round
  rw [hpow]
  have h1 : ((Int.floor (q * 10000 + 1 / 2) : Int) : ℚ) ≤ q * 10000 + 1 / 2 :=
    Int.floor_le _
  have h2 : q * 10000 + 1 / 2 - 1 < ((Int.floor (q * 10000 + 1 / 2) : Int) : ℚ) :=
    Int.sub_one_lt_floor _
  rw [abs_le]
  constructor <;> linarith

/-- Rounding preserves nonnegativity. -/
theorem round_nonneg (q : ℚ) (hq : 0 ≤ q) : 0 ≤ round q 4 := by
  unfold round
  apply div_nonneg _ (by norm_num)
  have h0 : (0 : ℚ) ≤ q * 10 ^ 4 + 1 / 2 := by positivity
  exact_mod_cast Int.floor_nonneg.mpr h0

/-- On byte inputs, the `int32` read-modify-write of `SetRange` collapses
to clearing the low 4 bits of the register byte, or-ing in the range code
and or-ing in bit 3. -/
theorem setRangeWrittenByte_eq (r g : Nat) (hr : r < 256) (hg : g < 256) :
    setRangeWrittenByte r g = (r &&& 0xF0) ||| g ||| 8 := by
  unfold setRangeWrittenByte
  rw [Nat.mod_eq_of_lt hr, Nat.mod_eq_of_lt hg]
  have h256 : (256 : Nat) = 2 ^ 8 := by norm_num
  apply Nat.eq_of_testBit_eq
  intro i
  rw [h256, Nat.testBit_mod_two_pow]
  by_cases hi : i < 8
  · have hmask : ∀ j, j < 8 → Nat.testBit 0xFFFFFFF0 j = Nat.testBit 0xF0 j := by decide
    simp [hi, Nat.testBit_lor, Nat.testBit_land, hmask i hi]
  · have hge : 8 ≤ i := Nat.le_of_not_lt hi
    have hpow : (256 : Nat) ≤ 2 ^ i := h256 ▸ Nat.pow_le_pow_right (by norm_num) hge
    have hrb : r.testBit i = false := Nat.testBit_lt_two_pow (lt_of_lt_of_le hr hpow)
    have hgb : g.testBit i = false := Nat.testBit_lt_two_pow (lt_of_lt_of_le hg hpow)
    have h8b : Nat.testBit 8 i = false :=
      Nat.testBit_lt_two_pow (lt_of_lt_of_le (by norm_num) hpow)
    have hmb : Nat.testBit 0xF0 i = false :=
      Nat.testBit_lt_two_pow (lt_of_lt_of_le (by norm_num) hpow)
    simp [hi, Nat.testBit_lor, Nat.testBit_land, hrb, hgb, h8b, hmb]

/-! ### Claims -/

/-- Claim C1: the spec requires each axis to be decoded as a little-endian
signed 16-bit two's-complement integer; the source computes
`buf[i] | (buf[i+1] << 8)` on byte-width operands, so the shifted high
byte contributes 0 and every one of the spec's example pairs with a
nonzero high byte decodes wrongly.  This theorem evaluates the code at the
failing inputs next to the decoding the claim requires. -/
theorem C1_decode_bug :
    rawAxis 0xFF 0xFF = 255 ∧ specLittleEndianInt16 0xFF 0xFF = -1 ∧
    rawAxis 0x00 0x80 = 0 ∧ specLittleEndianInt16 0x00 0x80 = -32768 ∧
    rawAxis 0xFF 0x7F = 255 ∧ specLittleEndianInt16 0xFF 0x7F = 32767 ∧
    rawAxis 0x00 0x00 = 0 ∧ specLittleEndianInt16 0x00 0x00 = 0 ∧
    rawAxis 0xFF 0xFF ≠ specLittleEndianInt16 0xFF 0xFF := by
  decide

/-- Claim C7: the rounding helper is the floor-based round-half-up formula
at 4 decimals: `round 1.00005 4 = 1.0001`, and on the negative input
`-1.00005` it returns exactly `floor (-1.00005 * 10^4 + 0.5) / 10^4 = -1`,
which is not the symmetric rounding `-1.0001`. -/
theorem C7_round_half_up :
    round (100005 / 100000 : ℚ) 4 = 10001 / 10000 ∧
    round (-(100005 / 100000) : ℚ) 4 =
      ((Int.floor ((-(100005 / 100000 : ℚ)) * 10 ^ 4 + 1 / 2) : Int) : ℚ) / 10 ^ 4 ∧
    round (-(100005 / 100000) : ℚ) 4 = -1 ∧
    round (-(100005 / 100000) : ℚ) 4 ≠ -(10001 / 10000) := by
  refine ⟨by norm_num [round], rfl, by norm_num [round], by norm_num [round]⟩

/-- Claim C3: after a successful read of DATA_FORMAT, `SetRange` writes
back the byte obtained by clearing the low 4 bits of the value read,
or-ing in the new range code and or-ing in bit 3, so the written byte
always has bit 3 set. -/
theorem C3_setRange_written_byte (a : ADXL345) (r g : Nat)
    (hr : r < 256) (hg : g < 256)
    (h : a.bus.readByteData dataFormat = Except.ok r) :
    (SetRange a g).trace =
      [Event.readByte dataFormat,
       Event.writeByte dataFormat ((r &&& 0xF0) ||| g ||| 8)] ∧
    Nat.testBit (setRangeWrittenByte r g) 3 = true := by
  have hb : Nat.testBit 8 3 = true := by decide
  constructor
  · simp only [SetRange, h]
    rw [setRangeWrittenByte_eq r g hr hg]
  · rw [setRangeWrittenByte_eq r g hr hg]
    simp [Nat.testBit_lor, hb]

/-- A transport whose DATA_FORMAT register reads as `0xA7`. -/
def busReadA7 : SMBus :=
  { readByteData := fun _ => Except.ok 0xA7
    writeByteData := fun _ _ => none
    readI2CBlockData := fun _ _ => Except.ok [0, 0, 0, 0, 0, 0] }

/-- A handle over `busReadA7`. -/
def handleReadA7 : ADXL345 := { bus := busReadA7, Address := 0x53, Line := 1 }

/-- Witness for C3 at register value `0xA7` and range code `0x03`. -/
theorem C3_witness :
    (SetRange handleReadA7 3).trace =
      [Event.readByte dataFormat,
       Event.writeByte dataFormat ((0xA7 &&& 0xF0) ||| 3 ||| 8)] ∧
    Nat.testBit (setRangeWrittenByte 0xA7 3) 3 = true :=
  C3_setRange_written_byte handleReadA7 0xA7 3 (by norm_num) (by norm_num) rfl

/-- Claim C8: when the initial read of DATA_FORMAT fails, `SetRange`
returns that error and attempts no write at all. -/
theorem C8_setRange_read_failure (a : ADXL345) (g : Nat) (e : String)
    (h : a.bus.readByteData dataFormat = Except.error e) :
    (SetRange a g).ret = some e ∧
    (SetRange a g).trace = [Event.readByte dataFormat] ∧
    ∀ reg v, Event.writeByte reg v ∉ (SetRange a g).trace := by
  simp [SetRange, h]

/-- A transport whose byte reads all fail. -/
def busReadFail : SMBus :=
  { readByteData := fun _ => Except.error "read failed"
    writeByteData := fun _ _ => none
    readI2CBlockData := fun _ _ => Except.ok [0, 0, 0, 0, 0, 0] }

/-- A handle over `busReadFail`. -/
def handleReadFail : ADXL345 := { bus := busReadFail, Address := 0x53, Line := 1 }

/-- Witness for C8 on a transport whose DATA_FORMAT read fails. -/
theorem C8_witness :
    (SetRange handleReadFail Range2G).ret = some "read failed" ∧
    (SetRange handleReadFail Range2G).trace = [Event.readByte dataFormat] ∧
    ∀ reg v, Event.writeByte reg v ∉ (SetRange handleReadFail Range2G).trace :=
  C8_setRange_read_failure handleReadFail Range2G "read failed" rfl

/-- Claim C4: after a successful transport open, a failing
`SetBandwidthRate` step aborts initialization without proceeding to
`SetRange` or `EnableMeasurement` — the trace holds only the BW_RATE write
attempt.  However the abort is a `log.Fatal` process exit, not the return
of the partially-constructed handle plus the error that the claim (and the
dead `return adxl345, err` statement after `log.Fatal`) describes. -/
theorem C4_init_aborts_on_bwrate_failure (smb : SMBus) (line address : Nat)
    (e : String) (h : smb.writeByteData bwRate Rate100HZ = some e) :
    NewADXL345 (Except.ok smb) line address =
      (GoProc.exit e, [Event.writeByte bwRate Rate100HZ]) ∧
    (∀ ev, ev ∈ (NewADXL345 (Except.ok smb) line address).2 →
      ev = Event.writeByte bwRate Rate100HZ) ∧
    ∀ p : ADXL345 × Option String,
      (NewADXL345 (Except.ok smb) line address).1 ≠ GoProc.ret p := by
  have hm : Rate100HZ % 256 = Rate100HZ := rfl
  have hstep : NewADXL345 (Except.ok smb) line address =
      (GoProc.exit e, [Event.writeByte bwRate Rate100HZ]) := by
    simp only [NewADXL345, SetBandwidthRate, hm, h]
  refine ⟨hstep, ?_, ?_⟩
  · intro ev hev
    rw [hstep] at hev
    simpa using hev
  · intro p
    rw [hstep]
    simp

/-- A transport on which every write to BW_RATE fails. -/
def busBwFail : SMBus :=
  { readByteData := fun _ => Except.ok 0
    writeByteData := fun reg _ => if reg = bwRate then some "write failed" else none
    readI2CBlockData := fun _ _ => Except.ok [0, 0, 0, 0, 0, 0] }

/-- Witness for C4 on a transport whose BW_RATE write fails. -/
theorem C4_witness :
    NewADXL345 (Except.ok busBwFail) 1 0x53 =
      (GoProc.exit "write failed", [Event.writeByte bwRate Rate100HZ]) ∧
    (∀ ev, ev ∈ (NewADXL345 (Except.ok busBwFail) 1 0x53).2 →
      ev = Event.writeByte bwRate Rate100HZ) ∧
    ∀ p : ADXL345 × Option String,
      (NewADXL345 (Except.ok busBwFail) 1 0x53).1 ≠ GoProc.ret p :=
  C4_init_aborts_on_bwrate_failure busBwFail 1 0x53 "write failed" rfl

/-- Claim C5: when the 6-byte block read fails, `GetAxesG` returns the
all-zero vector together with the error, and `GetAxesAcceleration`
propagates the same error, also with the all-zero vector. -/
theorem C5_zero_vector_on_read_error (a : ADXL345) (e : String)
    (h : a.bus.readI2CBlockData dataX0 6 = Except.error e) :
    (GetAxesG a).ret = (newVector, some e) ∧
    (GetAxesAcceleration a).ret = (newVector, some e) ∧
    newVector = { x := 0, y := 0, z := 0 } := by
  have hg : (GetAxesG a).ret = (newVector, some e) := by
    simp only [GetAxesG, h]
  refine ⟨hg, ?_, rfl⟩
  simp only [GetAxesAcceleration, hg]

/-- A transport whose block reads fail. -/
def busBlockFail : SMBus :=
  { readByteData := fun _ => Except.ok 0
    writeByteData := fun _ _ => none
    readI2CBlockData := fun _ _ => Except.error "block read failed" }

/-- A handle over `busBlockFail`. -/
def handleBlockFail : ADXL345 := { bus := busBlockFail, Address := 0x53, Line := 1 }

/-- Witness for C5 on a transport whose block read fails. -/
theorem C5_witness :
    (GetAxesG handleBlockFail).ret = (newVector, some "block read failed") ∧
    (GetAxesAcceleration handleBlockFail).ret = (newVector, some "block read failed") ∧
    newVector = { x := 0, y := 0, z := 0 } :=
  C5_zero_vector_on_read_error handleBlockFail "block read failed" rfl

/-- On a successful block read, the components `GetAxesG` returns are the
rounded, scaled low bytes of the three axis pairs (the byte-width shift
makes the high bytes vanish, `rawAxis_eq_low`). -/
theorem GetAxesG_ok_components (a : ADXL345) (buf : List Nat)
    (h : a.bus.readI2CBlockData dataX0 6 = Except.ok buf) :
    (GetAxesG a).ret =
      ({ x := round ((byteAt buf 0 : ℚ) * scaleMultiplier) 4
         y := round ((byteAt buf 2 : ℚ) * scaleMultiplier) 4
         z := round ((byteAt buf 4 : ℚ) * scaleMultiplier) 4 }, none) := by
  simp only [GetAxesG, h]
  rw [rawAxis_eq_low, rawAxis_eq_low, rawAxis_eq_low,
    Nat.mod_eq_of_lt (byteAt_lt buf 0), Nat.mod_eq_of_lt (byteAt_lt buf 2),
    Nat.mod_eq_of_lt (byteAt_lt buf 4)]
  push_cast
  rfl

/-- Claim C2: `GetAxesG` multiplies each decoded raw value by the fixed
scale factor `0.0039` and rounds to 4 places: the all-zero block yields
the zero vector, and the block starting `0x01, 0x00` yields
`x = round (1 * 0.0039) 4 = 0.0039`. -/
theorem C2_scale_and_round (a1 a2 : ADXL345)
    (h1 : a1.bus.readI2CBlockData dataX0 6 = Except.ok [0, 0, 0, 0, 0, 0])
    (h2 : a2.bus.readI2CBlockData dataX0 6 = Except.ok [1, 0, 0, 0, 0, 0]) :
    scaleMultiplier = 39 / 10000 ∧
    (GetAxesG a1).ret = (newVector, none) ∧
    (GetAxesG a2).ret.1.x = round (1 * scaleMultiplier) 4 ∧
    (GetAxesG a2).ret.1.x = 39 / 10000 := by
  have e1 := GetAxesG_ok_components a1 _ h1
  have e2 := GetAxesG_ok_components a2 _ h2
  refine ⟨rfl, ?_, ?_, ?_⟩
  · rw [e1]
    norm_num [byteAt, newVector, round, scaleMultiplier]
  · rw [e2]
    norm_num [byteAt]
  · rw [e2]
    norm_num [byteAt, round, scaleMultiplier]

/-- A transport whose block reads return the all-zero block. -/
def busZero : SMBus :=
  { readByteData := fun _ => Except.ok 0
    writeByteData := fun _ _ => none
    readI2CBlockData := fun _ _ => Except.ok [0, 0, 0, 0, 0, 0] }

/-- A handle over `busZero`. -/
def handleZero : ADXL345 := { bus := busZero, Address := 0x53, Line := 1 }

/-- A transport whose block reads return `[1, 0, 0, 0, 0, 0]`. -/
def busOne : SMBus :=
  { readByteData := fun _ => Except.ok 0
    writeByteData := fun _ _ => none
    readI2CBlockData := fun _ _ => Except.ok [1, 0, 0, 0, 0, 0] }

/-- A handle over `busOne`. -/
def handleOne : ADXL345 := { bus := busOne, Address := 0x53, Line := 1 }

/-- Witness for C2 on the all-zero block and the block starting `0x01`. -/
theorem C2_witness :
    scaleMultiplier = 39 / 10000 ∧
    (GetAxesG handleZero).ret = (newVector, none) ∧
    (GetAxesG handleOne).ret.1.x = round (1 * scaleMultiplier) 4 ∧
    (GetAxesG handleOne).ret.1.x = 39 / 10000 :=
  C2_scale_and_round handleZero handleOne rfl rfl

/-- Claim C6: on a successful read, each component of
`GetAxesAcceleration` is the corresponding `GetAxesG` component times
earth gravity `9.80665`, rounded to 4 places, hence within `1 / 10000` of
the unrounded product. -/
theorem C6_acceleration_vs_g (a : ADXL345) (buf : List Nat)
    (h : a.bus.readI2CBlockData dataX0 6 = Except.ok buf) :
    ((GetAxesAcceleration a).ret.1.x =
        round ((GetAxesG a).ret.1.x * earthGravityMS2) 4 ∧
     (GetAxesAcceleration a).ret.1.y =
        round ((GetAxesG a).ret.1.y * earthGravityMS2) 4 ∧
     (GetAxesAcceleration a).ret.1.z =
        round ((GetAxesG a).ret.1.z * earthGravityMS2) 4) ∧
    (|(GetAxesAcceleration a).ret.1.x - (GetAxesG a).ret.1.x * earthGravityMS2|
        ≤ 1 / 10000 ∧
     |(GetAxesAcceleration a).ret.1.y - (GetAxesG a).ret.1.y * earthGravityMS2|
        ≤ 1 / 10000 ∧
     |(GetAxesAcceleration a).ret.1.z - (GetAxesG a).ret.1.z * earthGravityMS2|
        ≤ 1 / 10000) := by
  have hg2 : (GetAxesG a).ret.2 = none := by
    rw [GetAxesG_ok_components a buf h]
  have hx : (GetAxesAcceleration a).ret.1.x =
      round ((GetAxesG a).ret.1.x * earthGravityMS2) 4 := by
    simp only [GetAxesAcceleration, hg2]
  have hy : (GetAxesAcceleration a).ret.1.y =
      round ((GetAxesG a).ret.1.y * earthGravityMS2) 4 := by
    simp only [GetAxesAcceleration, hg2]
  have hz : (GetAxesAcceleration a).ret.1.z =
      round ((GetAxesG a).ret.1.z * earthGravityMS2) 4 := by
    simp only [GetAxesAcceleration, hg2]
  refine ⟨⟨hx, hy, hz⟩, ?_, ?_, ?_⟩
  · rw [hx]
    exact round_abs_sub_le _
  · rw [hy]
    exact round_abs_sub_le _
  · rw [hz]
    exact round_abs_sub_le _

/-- Witness for C6 on the all-zero block. -/
theorem C6_witness :
    ((GetAxesAcceleration handleZero).ret.1.x =
        round ((GetAxesG handleZero).ret.1.x * earthGravityMS2) 4 ∧
     (GetAxesAcceleration handleZero).ret.1.y =
        round ((GetAxesG handleZero).ret.1.y * earthGravityMS2) 4 ∧
     (GetAxesAcceleration handleZero).ret.1.z =
        round ((GetAxesG handleZero).ret.1.z * earthGravityMS2) 4) ∧
    (|(GetAxesAcceleration handleZero).ret.1.x -
        (GetAxesG handleZero).ret.1.x * earthGravityMS2| ≤ 1 / 10000 ∧
     |(GetAxesAcceleration handleZero).ret.1.y -
        (GetAxesG handleZero).ret.1.y * earthGravityMS2| ≤ 1 / 10000 ∧
     |(GetAxesAcceleration handleZero).ret.1.z -
        (GetAxesG handleZero).ret.1.z * earthGravityMS2| ≤ 1 / 10000) :=
  C6_acceleration_vs_g handleZero [0, 0, 0, 0, 0, 0] rfl

/-- Claim C9: on any successful block read, each component `GetAxesG`
produces depends only on the low byte of its axis pair, the raw value lies
in `[0, 255]`, and every component is nonnegative. -/
theorem C9_low_byte_only (a : ADXL345) (buf : List Nat)
    (h : a.bus.readI2CBlockData dataX0 6 = Except.ok buf) :
    ((GetAxesG a).ret.1.x = round ((byteAt buf 0 : ℚ) * scaleMultiplier) 4 ∧
     (GetAxesG a).ret.1.y = round ((byteAt buf 2 : ℚ) * scaleMultiplier) 4 ∧
     (GetAxesG a).ret.1.z = round ((byteAt buf 4 : ℚ) * scaleMultiplier) 4) ∧
    (0 ≤ (GetAxesG a).ret.1.x ∧ 0 ≤ (GetAxesG a).ret.1.y ∧
     0 ≤ (GetAxesG a).ret.1.z) ∧
    (rawAxis (byteAt buf 0) (byteAt buf 1) = (byteAt buf 0 : Int) ∧
     0 ≤ rawAxis (byteAt buf 0) (byteAt buf 1) ∧
     rawAxis (byteAt buf 0) (byteAt buf 1) ≤ 255) := by
  have hc := GetAxesG_ok_components a buf h
  have hs : (0 : ℚ) ≤ scaleMultiplier := by norm_num [scaleMultiplier]
  have hraw : rawAxis (byteAt buf 0) (byteAt buf 1) = (byteAt buf 0 : Int) := by
    rw [rawAxis_eq_low, Nat.mod_eq_of_lt (byteAt_lt buf 0)]
  have hb := byteAt_lt buf 0
  refine ⟨⟨?_, ?_, ?_⟩, ⟨?_, ?_, ?_⟩, hraw, ?_, ?_⟩
  · rw [hc]
  · rw [hc]
  · rw [hc]
  · rw [hc]
    exact round_nonneg _ (mul_nonneg (Nat.cast_nonneg _) hs)
  · rw [hc]
    exact round_nonneg _ (mul_nonneg (Nat.cast_nonneg _) hs)
  · rw [hc]
    exact round_nonneg _ (mul_nonneg (Nat.cast_nonneg _) hs)
  · rw [hraw]
    exact Int.natCast_nonneg _
  · rw [hraw]
    omega

/-- A transport whose block reads return `[1, 2, 3, 4, 5, 6]`. -/
def busSix : SMBus :=
  { readByteData := fun _ => Except.ok 0
    writeByteData := fun _ _ => none
    readI2CBlockData := fun _ _ => Except.ok [1, 2, 3, 4, 5, 6] }

/-- A handle over `busSix`. -/
def handleSix : ADXL345 := { bus := busSix, Address := 0x53, Line := 1 }

/-- Witness for C9 on the block `[1, 2, 3, 4, 5, 6]`. -/
theorem C9_witness :
    ((GetAxesG handleSix).ret.1.x =
        round ((byteAt [1, 2, 3, 4, 5, 6] 0 : ℚ) * scaleMultiplier) 4 ∧
     (GetAxesG handleSix).ret.1.y =
        round ((byteAt [1, 2, 3, 4, 5, 6] 2 : ℚ) * scaleMultiplier) 4 ∧
     (GetAxesG handleSix).ret.1.z =
        round ((byteAt [1, 2, 3, 4, 5, 6] 4 : ℚ) * scaleMultiplier) 4) ∧
    (0 ≤ (GetAxesG handleSix).ret.1.x ∧ 0 ≤ (GetAxesG handleSix).ret.1.y ∧
     0 ≤ (GetAxesG handleSix).ret.1.z) ∧
    (rawAxis (byteAt [1, 2, 3, 4, 5, 6] 0) (byteAt [1, 2, 3, 4, 5, 6] 1) =
        (byteAt [1, 2, 3, 4, 5, 6] 0 : Int) ∧
     0 ≤ rawAxis (byteAt [1, 2, 3, 4, 5, 6] 0) (byteAt [1, 2, 3, 4, 5, 6] 1) ∧
     rawAxis (byteAt [1, 2, 3, 4, 5, 6] 0) (byteAt [1, 2, 3, 4, 5, 6] 1) ≤ 255) :=
  C9_low_byte_only handleSix [1, 2, 3, 4, 5, 6] rfl

/-- Claim C10: every method hands its receiver back untouched — the driver
never assigns to the handle's fields, so the transport reference, address
and line of the caller's handle are unchanged by every operation. -/
theorem C10_handle_unchanged (a : ADXL345) (rate rng : Nat) :
    (SetBandwidthRate a rate).self = a ∧ (SetRange a rng).self = a ∧
    (EnableMeasurement a).self = a ∧ (GetAxesG a).self = a ∧
    (GetAxesAcceleration a).self = a ∧ (Close a).self = a := by
  refine ⟨rfl, ?_, rfl, ?_, ?_, rfl⟩
  · unfold SetRange
    cases a.bus.readByteData dataFormat <;> rfl
  · unfold GetAxesG
    cases a.bus.readI2CBlockData dataX0 6 <;> rfl
  · unfold GetAxesAcceleration GetAxesG
    cases a.bus.readI2CBlockData dataX0 6 <;> rfl

/-- Witness for C10 on a concrete handle. -/
theorem C10_witness :
    (SetBandwidthRate handleZero 5).self = handleZero ∧
    (SetRange handleZero 3).self = handleZero ∧
    (EnableMeasurement handleZero).self = handleZero ∧
    (GetAxesG handleZero).self = handleZero ∧
    (GetAxesAcceleration handleZero).self = handleZero ∧
    (Close handleZero).self = handleZero :=
  C10_handle_unchanged handleZero 5 3

end Adxl345
